import Mathlib

/-!
Verification of the usanumbers backend purchase coordinator.

The repository stores three Firestore collections (numbers, users, transactions)
and mutates them through Express route handlers. We embed the collections as
association lists keyed by document id and translate each handler into a pure
function from a store (plus the request body) to an updated store together with
an `Except` result. Firestore's `runTransaction` and `WriteBatch.commit` are
all-or-nothing: a handler that throws before committing leaves the store
untouched, which the embedding reflects by returning the input store on every
error path. Timestamps (`new Date().toISOString()`) are threaded in as an
opaque `now : String` argument; JavaScript numbers are modelled as rationals.
-/

/-- JavaScript `a || b` where `a` is an optional numeric field: a number is
falsy exactly when it equals 0 (NaN is not modelled). -/
def jsOrQ (a : Option ℚ) (b : ℚ) : ℚ :=
  match a with
  | some x => if x = 0 then b else x
  | none => b

/-- JavaScript `a || b` where `a` is an optional string field: a string is
falsy exactly when it is empty. -/
def jsOrS (a : Option String) (b : String) : String :=
  match a with
  | some x => if x = "" then b else x
  | none => b

/-- Fallback price used as `price || numberData.price || 0.30` in the buy handler. -/
def defaultNumberPrice : ℚ := 3 / 10

/-- A document of the `numbers` collection. -/
structure NumberRec where
  phoneNumber : String
  apiUrl : String
  price : Option ℚ
  type : Option String
  status : String
  soldTo : Option String
  soldToEmail : Option String
  soldAt : Option String
  addedAt : Option String
deriving DecidableEq

/-- An element of a user's `purchasedNumbersData` array: the snapshot built by
the buy handlers (`completeNumberData` / the bulk `purchasedNumbersData` map). -/
structure PurchasedNumberData where
  phoneNumber : String
  apiUrl : String
  type : String
  originalId : String
  purchasedAt : String
  purchaseType : String
  packageType : Option String
  price : ℚ
deriving DecidableEq

/-- A document of the `users` collection. -/
structure UserRec where
  uid : String
  email : String
  fullName : String
  credits : ℚ
  purchasedNumbers : List String
  purchasedNumbersData : List PurchasedNumberData
  role : String
  createdAt : String
  lastLogin : String
  status : String
deriving DecidableEq

/-- A document of the `transactions` collection. Single purchases fill
`number`/`numberData`; bulk purchases fill `quantity`/`packageType`/`numbers`/
`numbersData`. -/
structure TransactionRec where
  userId : String
  userEmail : String
  type : String
  amount : ℚ
  number : Option String
  numberData : Option PurchasedNumberData
  quantity : Option ℚ
  packageType : Option String
  numbers : Option (List String)
  numbersData : Option (List PurchasedNumberData)
  timestamp : String
  status : String
deriving DecidableEq

/-- The backing store: the three Firestore collections used by the purchase
coordinator, keyed by document id (ids are unique per collection). -/
structure Store where
  numbers : List (String × NumberRec)
  users : List (String × UserRec)
  transactions : List TransactionRec
deriving DecidableEq

/-- Firestore `collection.doc(id).get()`. -/
def getDoc {α : Type} : List (String × α) → String → Option α
  | [], _ => none
  | p :: rest, id => if p.1 = id then some p.2 else getDoc rest id

/-- Whether a document with the given id exists. -/
def containsDoc {α : Type} (docs : List (String × α)) (id : String) : Bool :=
  (getDoc docs id).isSome

/-- Firestore `update`: modifies the (unique) document with the given id and
changes nothing else; updating an absent document is a commit-time failure,
checked separately by the callers. -/
def updateDoc {α : Type} : List (String × α) → String → (α → α) → List (String × α)
  | [], _, _ => []
  | p :: rest, id, f => if p.1 = id then (p.1, f p.2) :: rest else p :: updateDoc rest id f

/-- Firestore `doc(id).set(v)`: overwrites the document or creates it. -/
def setDoc {α : Type} : List (String × α) → String → α → List (String × α)
  | [], id, v => [(id, v)]
  | p :: rest, id, v => if p.1 = id then (p.1, v) :: rest else p :: setDoc rest id v

/-- Firestore `FieldValue.arrayUnion(...elems)`: appends each element that is
not already present in the stored array, in order. -/
def arrayUnion {α : Type} [DecidableEq α] (xs ys : List α) : List α :=
  ys.foldl (fun acc y => if y ∈ acc then acc else acc ++ [y]) xs

/-- Typed failures surfaced by the handlers' precondition checks. A thrown
error aborts the enclosing Firestore transaction or batch with no effect. -/
inductive ApiError where
  | missingFields
  | numberNotFound
  | numberUnavailable
  | userNotFound
  | insufficientCredits
  | updateTargetMissing
deriving DecidableEq

/-- Successful payload of POST /api/numbers/buy. -/
structure BuyResult where
  newBalance : ℚ
  number : String
deriving DecidableEq

/-- Successful payload of POST /api/numbers/bulk-buy. -/
structure BulkResult where
  newBalance : ℚ
  purchasedCount : Nat
deriving DecidableEq

/-- Effective price of a single purchase: `price || numberData.price || 0.30`. -/
def numberPriceOf (reqPrice : Option ℚ) (storedPrice : Option ℚ) : ℚ :=
  jsOrQ reqPrice (jsOrQ storedPrice defaultNumberPrice)

/-- The `completeNumberData` snapshot built by the single-buy handlers. -/
def singleSnapshot (numberData : NumberRec) (numberId : String) (numberPrice : ℚ)
    (now : String) : PurchasedNumberData :=
  { phoneNumber := numberData.phoneNumber
    apiUrl := numberData.apiUrl
    type := jsOrS numberData.type "SMS & Call"
    originalId := numberId
    purchasedAt := now
    purchaseType := "single"
    packageType := none
    price := numberPrice }

/-- POST /api/numbers/buy (transactional variant, src/api/index.js lines
201-292). Checks number existence and availability, user existence and
credits, then inside one Firestore transaction marks the number sold, debits
the user, appends to the purchased lists and writes one transaction record. -/
def buyNumber (s : Store) (userId numberId : String) (reqPrice : Option ℚ)
    (now : String) : Store × Except ApiError BuyResult :=
  if userId = "" ∨ numberId = "" then (s, Except.error ApiError.missingFields) else
  match getDoc s.numbers numberId with
  | none => (s, Except.error ApiError.numberNotFound)
  | some numberData =>
    if numberData.status ≠ "available" then (s, Except.error ApiError.numberUnavailable) else
    match getDoc s.users userId with
    | none => (s, Except.error ApiError.userNotFound)
    | some userData =>
      let numberPrice := numberPriceOf reqPrice numberData.price
      if userData.credits < numberPrice then (s, Except.error ApiError.insufficientCredits) else
      let completeNumberData := singleSnapshot numberData numberId numberPrice now
      let s1 : Store := { s with numbers := updateDoc s.numbers numberId (fun n =>
        { n with status := "sold", soldTo := some userId,
                 soldToEmail := some userData.email, soldAt := some now }) }
      let s2 : Store := { s1 with users := updateDoc s1.users userId (fun u =>
        { u with credits := u.credits - numberPrice,
                 purchasedNumbers := arrayUnion u.purchasedNumbers [numberData.phoneNumber],
                 purchasedNumbersData := arrayUnion u.purchasedNumbersData [completeNumberData] }) }
      let tx : TransactionRec :=
        { userId := userId
          userEmail := userData.email
          type := "single_purchase"
          amount := numberPrice
          number := some numberData.phoneNumber
          numberData := some completeNumberData
          quantity := none
          packageType := none
          numbers := none
          numbersData := none
          timestamp := now
          status := "completed" }
      let s3 : Store := { s2 with transactions := s2.transactions ++ [tx] }
      (s3, Except.ok { newBalance := userData.credits - numberPrice,
                       number := numberData.phoneNumber })

/-- POST /api/numbers/buy (token-verification variant, src/api/index.js lines
1244-1330, same body as src/unnamed/part_000 lines 358-439). Identical checks
and number/user updates, but it creates no transaction record. -/
def buyNumberToken (s : Store) (userId numberId : String) (reqPrice : Option ℚ)
    (now : String) : Store × Except ApiError BuyResult :=
  if userId = "" ∨ numberId = "" then (s, Except.error ApiError.missingFields) else
  match getDoc s.numbers numberId with
  | none => (s, Except.error ApiError.numberNotFound)
  | some numberData =>
    if numberData.status ≠ "available" then (s, Except.error ApiError.numberUnavailable) else
    match getDoc s.users userId with
    | none => (s, Except.error ApiError.userNotFound)
    | some userData =>
      let numberPrice := numberPriceOf reqPrice numberData.price
      if userData.credits < numberPrice then (s, Except.error ApiError.insufficientCredits) else
      let completeNumberData := singleSnapshot numberData numberId numberPrice now
      let s1 : Store := { s with numbers := updateDoc s.numbers numberId (fun n =>
        { n with status := "sold", soldTo := some userId,
                 soldToEmail := some userData.email, soldAt := some now }) }
      let s2 : Store := { s1 with users := updateDoc s1.users userId (fun u =>
        { u with credits := u.credits - numberPrice,
                 purchasedNumbers := arrayUnion u.purchasedNumbers [numberData.phoneNumber],
                 purchasedNumbersData := arrayUnion u.purchasedNumbersData [completeNumberData] }) }
      (s2, Except.ok { newBalance := userData.credits - numberPrice,
                       number := numberData.phoneNumber })

/-- An element of the `numbers` array of a bulk-buy request body. -/
structure BulkItem where
  id : String
  phoneNumber : String
  apiUrl : String
  type : Option String
deriving DecidableEq

/-- The per-item snapshot built by the bulk handler's `numbers.map`. -/
def bulkSnapshot (packageType : Option String) (perPrice : ℚ) (now : String)
    (num : BulkItem) : PurchasedNumberData :=
  { phoneNumber := num.phoneNumber
    apiUrl := num.apiUrl
    type := jsOrS num.type "SMS & Call"
    originalId := num.id
    purchasedAt := now
    purchaseType := "bulk"
    packageType := some (jsOrS packageType "custom")
    price := perPrice }

/-- POST /api/numbers/bulk-buy (transactional variant, src/api/index.js lines
295-378). Checks the user and credits only — number availability is never
re-checked — then marks every number in the batch sold, debits `totalPrice`,
appends the purchased lists and writes one bulk transaction record. A
`transaction.update` against an absent number document makes the whole commit
fail with no effect, modelled by the `containsDoc` guard. -/
def bulkBuy (s : Store) (userId : String) (quantity totalPrice : ℚ)
    (packageType : Option String) (numbers : List BulkItem) (now : String) :
    Store × Except ApiError BulkResult :=
  if userId = "" ∨ quantity = 0 ∨ totalPrice = 0 ∨ numbers = [] then
    (s, Except.error ApiError.missingFields) else
  match getDoc s.users userId with
  | none => (s, Except.error ApiError.userNotFound)
  | some userData =>
    if userData.credits < totalPrice then (s, Except.error ApiError.insufficientCredits) else
    if ¬ numbers.all (fun num => containsDoc s.numbers num.id) then
      (s, Except.error ApiError.updateTargetMissing) else
    let purchasedNumbersData := numbers.map (bulkSnapshot packageType (totalPrice / quantity) now)
    let phoneNumbersList := numbers.map (fun num => num.phoneNumber)
    let s1 : Store := { s with numbers := numbers.foldl (fun docs num =>
        updateDoc docs num.id (fun n =>
          { n with status := "sold", soldTo := some userId,
                   soldToEmail := some userData.email, soldAt := some now })) s.numbers }
    let s2 : Store := { s1 with users := updateDoc s1.users userId (fun u =>
      { u with credits := u.credits - totalPrice,
               purchasedNumbers := arrayUnion u.purchasedNumbers phoneNumbersList,
               purchasedNumbersData := arrayUnion u.purchasedNumbersData purchasedNumbersData }) }
    let tx : TransactionRec :=
      { userId := userId
        userEmail := userData.email
        type := "bulk_purchase"
        amount := totalPrice
        number := none
        numberData := none
        quantity := some quantity
        packageType := some (jsOrS packageType "custom")
        numbers := some phoneNumbersList
        numbersData := some purchasedNumbersData
        timestamp := now
        status := "completed" }
    let s3 : Store := { s2 with transactions := s2.transactions ++ [tx] }
    (s3, Except.ok { newBalance := userData.credits - totalPrice,
                     purchasedCount := numbers.length })

/-- POST /api/user/numbers/delete (token variant, src/api/index.js lines
1145-1198; the first variant is the singleton special case). Filters the
given phone numbers out of the user's two purchased lists and writes nothing
else. -/
def deleteUserNumbers (s : Store) (userId : String) (nums : List String) :
    Store × Except ApiError Unit :=
  if userId = "" ∨ nums = [] then (s, Except.error ApiError.missingFields) else
  match getDoc s.users userId with
  | none => (s, Except.error ApiError.userNotFound)
  | some _ =>
    ({ s with users := updateDoc s.users userId (fun u =>
        { u with purchasedNumbers := u.purchasedNumbers.filter (fun n => !(nums.contains n)),
                 purchasedNumbersData :=
                   u.purchasedNumbersData.filter (fun d => !(nums.contains d.phoneNumber)) }) },
     Except.ok ())

/-- POST /api/auth/signup (src/api/index.js lines 77-106): writes a fresh user
document with zero credits, empty purchased lists and the user role. -/
def signup (s : Store) (uid email : String) (fullName : Option String) (now : String) :
    Store × Except ApiError (String × String) :=
  if uid = "" ∨ email = "" then (s, Except.error ApiError.missingFields) else
  let userData : UserRec :=
    { uid := uid
      email := email
      fullName := jsOrS fullName "User"
      credits := 0
      purchasedNumbers := []
      purchasedNumbersData := []
      role := "user"
      createdAt := now
      lastLogin := now
      status := "active" }
  ({ s with users := setDoc s.users uid userData }, Except.ok (uid, email))

/-- A purchase request, for reasoning about sequences of purchase operations. -/
inductive PurchaseOp where
  | single (userId numberId : String) (reqPrice : Option ℚ) (now : String)
  | bulk (userId : String) (quantity totalPrice : ℚ) (packageType : Option String)
      (numbers : List BulkItem) (now : String)

/-- The store left behind by one purchase request (failed requests leave the
store unchanged). -/
def execOp (s : Store) : PurchaseOp → Store
  | PurchaseOp.single userId numberId reqPrice now => (buyNumber s userId numberId reqPrice now).1
  | PurchaseOp.bulk userId quantity totalPrice packageType numbers now =>
      (bulkBuy s userId quantity totalPrice packageType numbers now).1

/-- The store left behind by a sequence of purchase requests. -/
def execOps (s : Store) (ops : List PurchaseOp) : Store := ops.foldl execOp s

/-- Every user document in the store has a non-negative credit balance. -/
def usersNonneg (s : Store) : Prop := ∀ p ∈ s.users, 0 ≤ p.2.credits

/-- The spec's effective-price rule, stated for comparison with the code:
expectedPrice if provided and greater than zero, else the stored price, else
the system default 0.30. -/
def effectivePriceSpec (expected stored : Option ℚ) : ℚ :=
  match expected with
  | some p =>
    if 0 < p then p else
    match stored with
    | some q => q
    | none => defaultNumberPrice
  | none =>
    match stored with
    | some q => q
    | none => defaultNumberPrice

/-- The amended effective-price rule: expectedPrice whenever it is provided
and nonzero (negative values included), else the stored price when present and
nonzero, else the default 0.30. -/
def amendedEffectivePrice (expected stored : Option ℚ) : ℚ :=
  match expected with
  | some p =>
    if p ≠ 0 then p else
    match stored with
    | some q => if q ≠ 0 then q else defaultNumberPrice
    | none => defaultNumberPrice
  | none =>
    match stored with
    | some q => if q ≠ 0 then q else defaultNumberPrice
    | none => defaultNumberPrice

/-- Sum of the per-item prices recorded in a transaction's `numbersData`. -/
def recordedPricesSum (t : TransactionRec) : ℚ :=
  (t.numbersData.getD []).foldl (fun acc d => acc + d.price) 0

theorem mem_updateDoc {α : Type} {docs : List (String × α)} {id : String} {f : α → α}
    {q : String × α} (hq : q ∈ updateDoc docs id f) :
    q ∈ docs ∨ ∃ v, getDoc docs id = some v ∧ q = (id, f v) := by
  induction docs with
  | nil => simp [updateDoc] at hq
  | cons p rest ih =>
    by_cases hid : p.1 = id
    · rw [updateDoc, if_pos hid] at hq
      rcases List.mem_cons.1 hq with h | h
      · exact Or.inr ⟨p.2, by rw [getDoc, if_pos hid], by rw [h, hid]⟩
      · exact Or.inl (List.mem_cons_of_mem _ h)
    · rw [updateDoc, if_neg hid] at hq
      rcases List.mem_cons.1 hq with h | h
      · exact Or.inl (h ▸ List.mem_cons_self _ _)
      · rcases ih h with h2 | ⟨v, hv, hq2⟩
        · exact Or.inl (List.mem_cons_of_mem _ h2)
        · exact Or.inr ⟨v, by rw [getDoc, if_neg hid]; exact hv, hq2⟩

theorem getDoc_updateDoc {α : Type} (docs : List (String × α)) (id : String) (f : α → α)
    (uid : String) :
    getDoc (updateDoc docs id f) uid =
      if uid = id then (getDoc docs id).map f else getDoc docs uid := by
  induction docs with
  | nil =>
    simp only [updateDoc, getDoc]
    split <;> rfl
  | cons p rest ih =>
    by_cases hid : p.1 = id
    · by_cases hu : uid = id
      · simp [updateDoc, getDoc, hid, hu]
      · have hpu : ¬ p.1 = uid := fun h => hu (by rw [← h, hid])
        have hiu : ¬ id = uid := fun h => hu h.symm
        simp [updateDoc, getDoc, hid, hu, hpu, hiu]
    · by_cases hpu : p.1 = uid
      · have hu : ¬ uid = id := fun h => hid (by rw [hpu, h])
        simp [updateDoc, getDoc, hid, hpu, hu]
      · simp [updateDoc, getDoc, hid, hpu, ih]

theorem getDoc_setDoc_self {α : Type} (docs : List (String × α)) (id : String) (v : α) :
    getDoc (setDoc docs id v) id = some v := by
  induction docs with
  | nil => simp [setDoc, getDoc]
  | cons p rest ih =>
    by_cases hid : p.1 = id
    · simp [setDoc, getDoc, hid]
    · simp [setDoc, getDoc, hid, ih]

theorem foldl_price_sum {β : Type} (l : List β) (g : β → PurchasedNumberData) (c : ℚ)
    (hg : ∀ b, (g b).price = c) (a : ℚ) :
    (l.map g).foldl (fun acc d => acc + d.price) a = a + l.length * c := by
  induction l generalizing a with
  | nil => simp
  | cons x xs ih =>
    simp only [List.map_cons, List.foldl_cons, hg, ih, List.length_cons]
    push_cast
    ring

/-- Sample inventory: an available number priced 2. -/
def numAvail : NumberRec :=
  { phoneNumber := "+1 555 0100", apiUrl := "https://sms.usa.com/api/15550100",
    price := some 2, type := some "SMS & Call", status := "available",
    soldTo := none, soldToEmail := none, soldAt := none, addedAt := some "t0" }

/-- Sample inventory: a number already sold to alice. -/
def numSold : NumberRec :=
  { phoneNumber := "+1 555 0200", apiUrl := "https://sms.usa.com/api/15550200",
    price := some 2, type := some "SMS & Call", status := "sold",
    soldTo := some "alice", soldToEmail := some "alice@example.com",
    soldAt := some "t0", addedAt := some "t0" }

/-- Sample buyer with 10 credits and nothing purchased yet. -/
def bobUser : UserRec :=
  { uid := "bob", email := "bob@example.com", fullName := "Bob", credits := 10,
    purchasedNumbers := [], purchasedNumbersData := [], role := "user",
    createdAt := "t0", lastLogin := "t0", status := "active" }

/-- Sample store: one available number, one sold number, one buyer. -/
def demoStore : Store :=
  { numbers := [("n1", numAvail), ("n2", numSold)], users := [("bob", bobUser)],
    transactions := [] }

/-- Bulk-request item referring to the available number n1. -/
def itemAvail : BulkItem :=
  { id := "n1", phoneNumber := "+1 555 0100",
    apiUrl := "https://sms.usa.com/api/15550100", type := some "SMS & Call" }

/-- Bulk-request item referring to the already-sold number n2. -/
def itemSold : BulkItem :=
  { id := "n2", phoneNumber := "+1 555 0200",
    apiUrl := "https://sms.usa.com/api/15550200", type := some "SMS & Call" }

/-- C1: the no-double-sale claim fails on the bulk path. `bulkBuy` never
re-checks a number's status, so a batch containing the already-sold number n2
succeeds, marks n2 sold a second time and reassigns it from alice to bob. -/
theorem bulkBuy_resells_sold_number :
    (bulkBuy demoStore "bob" 1 2 none [itemSold] "t1").2 =
      Except.ok { newBalance := 10 - 2, purchasedCount := 1 } ∧
    (getDoc (bulkBuy demoStore "bob" 1 2 none [itemSold] "t1").1.numbers "n2").map
        (fun n => (n.status, n.soldTo)) = some ("sold", some "bob") ∧
    (10:ℚ) - 2 = 8 := by
  exact ⟨rfl, rfl, by norm_num⟩

/-- C3: bulk all-or-nothing fails on the code. A batch containing the sold
number n2 alongside the available n1 does not fail with NumberUnavailable: it
succeeds, changes both numbers' status and owner, and debits the user. -/
theorem bulkBuy_commits_despite_unavailable_member :
    (bulkBuy demoStore "bob" 2 4 none [itemAvail, itemSold] "t1").2 =
      Except.ok { newBalance := 10 - 4, purchasedCount := 2 } ∧
    (getDoc (bulkBuy demoStore "bob" 2 4 none [itemAvail, itemSold] "t1").1.numbers "n1").map
        (fun n => (n.status, n.soldTo)) = some ("sold", some "bob") ∧
    (getDoc (bulkBuy demoStore "bob" 2 4 none [itemAvail, itemSold] "t1").1.numbers "n2").map
        (fun n => (n.status, n.soldTo)) = some ("sold", some "bob") ∧
    (getDoc (bulkBuy demoStore "bob" 2 4 none [itemAvail, itemSold] "t1").1.users "bob").map
        (fun u => u.credits) = some (10 - 4) ∧
    (10:ℚ) - 4 = 6 := by
  exact ⟨rfl, rfl, rfl, rfl, by norm_num⟩

/-- C2: a purchase (single or bulk) whose result is an error leaves the entire
store — user credits, number statuses and the transaction log — unchanged. -/
theorem purchase_failure_leaves_store_unchanged :
    (∀ s userId numberId reqPrice now e,
        (buyNumber s userId numberId reqPrice now).2 = Except.error e →
        (buyNumber s userId numberId reqPrice now).1 = s) ∧
    (∀ s userId quantity totalPrice packageType numbers now e,
        (bulkBuy s userId quantity totalPrice packageType numbers now).2 = Except.error e →
        (bulkBuy s userId quantity totalPrice packageType numbers now).1 = s) := by
  constructor
  · intro s userId numberId reqPrice now e
    simp only [buyNumber]
    repeat' split
    all_goals intro h
    any_goals rfl
    exact Except.noConfusion h
  · intro s userId quantity totalPrice packageType numbers now e
    simp only [bulkBuy]
    repeat' split
    all_goals intro h
    any_goals rfl
    exact Except.noConfusion h

/-- C2 witness: a failing single purchase (unknown number id) at a concrete
store leaves the store unchanged. -/
theorem purchase_failure_leaves_store_unchanged_witness :
    (buyNumber demoStore "bob" "nope" none "t1").1 = demoStore :=
  purchase_failure_leaves_store_unchanged.1 demoStore "bob" "nope" none "t1"
    ApiError.numberNotFound rfl

theorem buyNumber_preserves_usersNonneg (s : Store) (userId numberId : String)
    (reqPrice : Option ℚ) (now : String) (h : usersNonneg s) :
    usersNonneg (buyNumber s userId numberId reqPrice now).1 := by
  simp only [buyNumber]
  repeat' split
  any_goals exact h
  rename_i userData hud hlt
  intro p hp
  rcases mem_updateDoc hp with hmem | ⟨v, hv, rfl⟩
  · exact h p hmem
  · rw [hud] at hv
    obtain rfl : userData = v := Option.some.inj hv
    simpa using sub_nonneg.mpr (le_of_not_lt hlt)

theorem bulkBuy_preserves_usersNonneg (s : Store) (userId : String)
    (quantity totalPrice : ℚ) (packageType : Option String) (numbers : List BulkItem)
    (now : String) (h : usersNonneg s) :
    usersNonneg (bulkBuy s userId quantity totalPrice packageType numbers now).1 := by
  simp only [bulkBuy]
  repeat' split
  any_goals exact h
  rename_i userData hud hlt hall
  intro p hp
  rcases mem_updateDoc hp with hmem | ⟨v, hv, rfl⟩
  · exact h p hmem
  · rw [hud] at hv
    obtain rfl : userData = v := Option.some.inj hv
    simpa using sub_nonneg.mpr (le_of_not_lt hlt)

/-- C4: credits stay non-negative. First part: any sequence of single and bulk
purchase requests preserves non-negativity of every user's balance. Second and
third parts: a single or bulk purchase whose effective price (resp. totalPrice)
exceeds the current balance fails with InsufficientCredits and changes
nothing. -/
theorem user_credits_never_negative :
    (∀ s ops, usersNonneg s → usersNonneg (execOps s ops)) ∧
    (∀ s userId numberId reqPrice now numberData userData,
        userId ≠ "" → numberId ≠ "" →
        getDoc s.numbers numberId = some numberData →
        numberData.status = "available" →
        getDoc s.users userId = some userData →
        userData.credits < numberPriceOf reqPrice numberData.price →
        buyNumber s userId numberId reqPrice now =
          (s, Except.error ApiError.insufficientCredits)) ∧
    (∀ s userId quantity totalPrice packageType numbers now userData,
        userId ≠ "" → quantity ≠ 0 → totalPrice ≠ 0 → numbers ≠ [] →
        getDoc s.users userId = some userData →
        userData.credits < totalPrice →
        bulkBuy s userId quantity totalPrice packageType numbers now =
          (s, Except.error ApiError.insufficientCredits)) := by
  refine ⟨?_, ?_, ?_⟩
  · intro s ops
    induction ops generalizing s with
    | nil => exact fun h => h
    | cons op rest ih =>
      intro h
      cases op with
      | single userId numberId reqPrice now =>
        exact ih _ (buyNumber_preserves_usersNonneg s userId numberId reqPrice now h)
      | bulk userId quantity totalPrice packageType numbers now =>
        exact ih _
          (bulkBuy_preserves_usersNonneg s userId quantity totalPrice packageType numbers now h)
  · intro s userId numberId reqPrice now numberData userData huid hnid hnd hstat hud hlt
    simp [buyNumber, huid, hnid, hnd, hstat, hud, hlt]
  · intro s userId quantity totalPrice packageType numbers now userData huid hq ht hn hud hlt
    simp [bulkBuy, huid, hq, ht, hn, hud, hlt]

/-- C4 witness: the sample store satisfies the invariant after a purchase, and
a concrete over-priced purchase fails with InsufficientCredits and no effect. -/
theorem user_credits_never_negative_witness :
    usersNonneg (execOps demoStore [PurchaseOp.single "bob" "n1" none "t1"]) ∧
    buyNumber demoStore "bob" "n1" (some 20) "t1" =
      (demoStore, Except.error ApiError.insufficientCredits) := by
  constructor
  · exact user_credits_never_negative.1 demoStore
      [PurchaseOp.single "bob" "n1" none "t1"]
      (by show ∀ p ∈ demoStore.users, 0 ≤ p.2.credits; decide)
  · exact user_credits_never_negative.2.1 demoStore "bob" "n1" (some 20) "t1" numAvail bobUser
      (by decide) (by decide) rfl rfl rfl (by decide)

theorem numberPriceOf_eq_amended (reqPrice storedPrice : Option ℚ) :
    numberPriceOf reqPrice storedPrice = amendedEffectivePrice reqPrice storedPrice := by
  cases reqPrice with
  | none =>
    cases storedPrice with
    | none => rfl
    | some q =>
      by_cases hq : q = 0 <;>
        simp [numberPriceOf, jsOrQ, amendedEffectivePrice, hq]
  | some p =>
    by_cases hp : p = 0
    · cases storedPrice with
      | none => simp [numberPriceOf, jsOrQ, amendedEffectivePrice, hp]
      | some q =>
        by_cases hq : q = 0 <;>
          simp [numberPriceOf, jsOrQ, amendedEffectivePrice, hp, hq]
    · simp [numberPriceOf, jsOrQ, amendedEffectivePrice, hp]

/-- C5 counterexample: with expectedPrice = −1 (provided but not greater than
zero) the claim requires the Number's stored price 2 to be charged, but the
code charges −1 itself: the purchase succeeds and the balance increases. -/
theorem effective_price_negative_counterexample :
    (buyNumber demoStore "bob" "n1" (some (-1)) "t1").2 =
      Except.ok { newBalance := 10 - (-1), number := "+1 555 0100" } ∧
    numberPriceOf (some (-1)) numAvail.price = -1 ∧
    effectivePriceSpec (some (-1)) numAvail.price = 2 ∧
    (10:ℚ) - (-1) = 11 ∧
    numberPriceOf (some (-1)) numAvail.price ≠
      effectivePriceSpec (some (-1)) numAvail.price := by
  exact ⟨rfl, rfl, rfl, by norm_num, by norm_num [numAvail, numberPriceOf, jsOrQ,
    effectivePriceSpec]⟩

/-- C5 amended: the price charged by a successful single purchase follows the
amended rule — expectedPrice whenever provided and nonzero (negative values
included), else the stored price when present and nonzero, else 0.30 — and the
code's price computation coincides with that rule on all inputs. -/
theorem effective_price_amended :
    (∀ reqPrice storedPrice, numberPriceOf reqPrice storedPrice =
        amendedEffectivePrice reqPrice storedPrice) ∧
    (∀ s userId numberId reqPrice now numberData userData,
        userId ≠ "" → numberId ≠ "" →
        getDoc s.numbers numberId = some numberData →
        numberData.status = "available" →
        getDoc s.users userId = some userData →
        ¬ userData.credits < amendedEffectivePrice reqPrice numberData.price →
        (buyNumber s userId numberId reqPrice now).2 =
          Except.ok
            { newBalance := userData.credits - amendedEffectivePrice reqPrice numberData.price,
              number := numberData.phoneNumber }) := by
  refine ⟨numberPriceOf_eq_amended, ?_⟩
  intro s userId numberId reqPrice now numberData userData huid hnid hnd hstat hud hlt
  simp [buyNumber, huid, hnid, hnd, hstat, hud, numberPriceOf_eq_amended, hlt]

/-- C5 witness: a successful purchase at expectedPrice 3 is charged exactly the
amended effective price. -/
theorem effective_price_amended_witness :
    numberPriceOf (some 3) (some 2) = amendedEffectivePrice (some 3) (some 2) ∧
    (buyNumber demoStore "bob" "n1" (some 3) "t1").2 =
      Except.ok { newBalance := bobUser.credits - amendedEffectivePrice (some 3) numAvail.price,
                  number := numAvail.phoneNumber } :=
  ⟨effective_price_amended.1 (some 3) (some 2),
   effective_price_amended.2 demoStore "bob" "n1" (some 3) "t1" numAvail bobUser
     (by decide) (by decide) rfl rfl rfl (by decide)⟩

/-- C6 counterexample: the token-verification buy handler completes a
successful single purchase while creating no transaction record at all. -/
theorem token_buy_creates_no_transaction :
    (buyNumberToken demoStore "bob" "n1" none "t1").2 =
      Except.ok { newBalance := 10 - 2, number := "+1 555 0100" } ∧
    (buyNumberToken demoStore "bob" "n1" none "t1").1.transactions = [] := by
  exact ⟨rfl, rfl⟩

/-- C6 amended: in the transactional buy handler, every successful single
purchase appends exactly one transaction record, with type single_purchase,
amount the effective price, status completed, the buyer's id and the purchased
number snapshot; the token-variant handler appends none. -/
theorem single_purchase_transaction_record :
    (∀ s userId numberId reqPrice now numberData userData,
        userId ≠ "" → numberId ≠ "" →
        getDoc s.numbers numberId = some numberData →
        numberData.status = "available" →
        getDoc s.users userId = some userData →
        ¬ userData.credits < numberPriceOf reqPrice numberData.price →
        (buyNumber s userId numberId reqPrice now).1.transactions =
          s.transactions ++
            [{ userId := userId
               userEmail := userData.email
               type := "single_purchase"
               amount := numberPriceOf reqPrice numberData.price
               number := some numberData.phoneNumber
               numberData := some (singleSnapshot numberData numberId
                 (numberPriceOf reqPrice numberData.price) now)
               quantity := none
               packageType := none
               numbers := none
               numbersData := none
               timestamp := now
               status := "completed" }]) ∧
    (∀ s userId numberId reqPrice now,
        (buyNumberToken s userId numberId reqPrice now).1.transactions = s.transactions) := by
  constructor
  · intro s userId numberId reqPrice now numberData userData huid hnid hnd hstat hud hlt
    simp [buyNumber, huid, hnid, hnd, hstat, hud, hlt]
  · intro s userId numberId reqPrice now
    simp only [buyNumberToken]
    repeat' split
    all_goals rfl

/-- C6 witness: a concrete successful purchase appends exactly its transaction
record to the empty log. -/
theorem single_purchase_transaction_record_witness :
    (buyNumber demoStore "bob" "n1" none "t1").1.transactions =
      demoStore.transactions ++
        [{ userId := "bob"
           userEmail := bobUser.email
           type := "single_purchase"
           amount := numberPriceOf none numAvail.price
           number := some numAvail.phoneNumber
           numberData := some (singleSnapshot numAvail "n1"
             (numberPriceOf none numAvail.price) "t1")
           quantity := none
           packageType := none
           numbers := none
           numbersData := none
           timestamp := "t1"
           status := "completed" }] :=
  single_purchase_transaction_record.1 demoStore "bob" "n1" none "t1" numAvail bobUser
    (by decide) (by decide) rfl rfl rfl (by decide)

/-- C7 counterexample: nothing forces the request's quantity to equal the
batch size. With quantity 2 but a single-item batch at totalPrice 4, the
recorded per-item price is 4/2 = 2, so the transaction's recorded prices sum
to 2, not the submitted totalPrice 4. -/
theorem bulk_price_sum_counterexample :
    (bulkBuy demoStore "bob" 2 4 none [itemAvail] "t1").2 =
      Except.ok { newBalance := 10 - 4, purchasedCount := 1 } ∧
    (bulkBuy demoStore "bob" 2 4 none [itemAvail] "t1").1.transactions.map recordedPricesSum
      = [0 + 4 / 2] ∧
    (0:ℚ) + 4 / 2 ≠ 4 := by
  exact ⟨rfl, rfl, by norm_num⟩

/-- C7 amended: every item of a bulk purchase is recorded at price
totalPrice / quantity, and when the batch size equals the submitted quantity
the recorded prices of the batch's transaction sum to totalPrice exactly (in
exact rational arithmetic). -/
theorem bulk_price_accounting_amended :
    ∀ s userId quantity totalPrice packageType numbers now userData,
      userId ≠ "" → quantity ≠ 0 → totalPrice ≠ 0 → numbers ≠ [] →
      getDoc s.users userId = some userData →
      ¬ userData.credits < totalPrice →
      (∀ num ∈ numbers, containsDoc s.numbers num.id = true) →
      ∃ tx, (bulkBuy s userId quantity totalPrice packageType numbers now).1.transactions =
          s.transactions ++ [tx] ∧
        (∀ d ∈ tx.numbersData.getD [], d.price = totalPrice / quantity) ∧
        ((numbers.length : ℚ) = quantity → recordedPricesSum tx = totalPrice) := by
  intro s userId quantity totalPrice packageType numbers now userData huid hq ht hn hud hcred hall
  refine ⟨{ userId := userId
            userEmail := userData.email
            type := "bulk_purchase"
            amount := totalPrice
            number := none
            numberData := none
            quantity := some quantity
            packageType := some (jsOrS packageType "custom")
            numbers := some (numbers.map (fun num => num.phoneNumber))
            numbersData := some (numbers.map (bulkSnapshot packageType (totalPrice / quantity) now))
            timestamp := now
            status := "completed" }, ?_, ?_, ?_⟩
  · simp [bulkBuy, huid, hq, ht, hn, hud, hcred, List.all_eq_true.mpr hall]
  · intro d hd
    simp only [Option.getD_some] at hd
    obtain ⟨num, hnum, rfl⟩ := List.mem_map.1 hd
    rfl
  · intro hlen
    simp only [recordedPricesSum, Option.getD_some]
    rw [foldl_price_sum numbers (bulkSnapshot packageType (totalPrice / quantity) now)
      (totalPrice / quantity) (fun b => rfl) 0, hlen, zero_add, mul_comm,
      div_mul_cancel₀ totalPrice hq]

/-- C7 witness: a two-item batch with quantity 2 and totalPrice 4 records each
item at 2 and the transaction's prices sum to 4. -/
theorem bulk_price_accounting_amended_witness :
    ∃ tx, (bulkBuy demoStore "bob" 2 4 none [itemAvail, itemSold] "t1").1.transactions =
        demoStore.transactions ++ [tx] ∧
      (∀ d ∈ tx.numbersData.getD [], d.price = 4 / 2) ∧
      ((([itemAvail, itemSold] : List BulkItem).length : ℚ) = 2 → recordedPricesSum tx = 4) :=
  bulk_price_accounting_amended demoStore "bob" 2 4 none [itemAvail, itemSold] "t1" bobUser
    (by decide) (by decide) (by decide) (by decide) rfl (by decide) (by decide)

/-- C8: a successful single purchase returns newBalance equal to the user's
credits before the purchase minus the effective price, together with the
purchased number's phoneNumber. -/
theorem single_purchase_result_balance :
    ∀ s userId numberId reqPrice now numberData userData,
      userId ≠ "" → numberId ≠ "" →
      getDoc s.numbers numberId = some numberData →
      numberData.status = "available" →
      getDoc s.users userId = some userData →
      ¬ userData.credits < numberPriceOf reqPrice numberData.price →
      (buyNumber s userId numberId reqPrice now).2 =
        Except.ok { newBalance := userData.credits - numberPriceOf reqPrice numberData.price,
                    number := numberData.phoneNumber } := by
  intro s userId numberId reqPrice now numberData userData huid hnid hnd hstat hud hlt
  simp [buyNumber, huid, hnid, hnd, hstat, hud, hlt]

/-- C8 witness: buying n1 (stored price 2) with 10 credits returns balance
10 − 2 and the purchased phone number. -/
theorem single_purchase_result_balance_witness :
    (buyNumber demoStore "bob" "n1" none "t1").2 =
      Except.ok { newBalance := bobUser.credits - numberPriceOf none numAvail.price,
                  number := numAvail.phoneNumber } :=
  single_purchase_result_balance demoStore "bob" "n1" none "t1" numAvail bobUser
    (by decide) (by decide) rfl rfl rfl (by decide)

/-- C9: the user-side delete operation touches only the requesting user's two
purchased lists. The numbers collection (in particular any sold Number's
status) and the transaction log are unchanged, every surviving user document
keeps its credits, email, role and the other profile fields, every user other
than the target is entirely unchanged, and the target's lists are exactly the
stored lists with the given phone numbers filtered out. -/
theorem deleteUserNumbers_frame :
    ∀ s userId nums,
      (deleteUserNumbers s userId nums).1.numbers = s.numbers ∧
      (deleteUserNumbers s userId nums).1.transactions = s.transactions ∧
      (∀ uid u2, getDoc (deleteUserNumbers s userId nums).1.users uid = some u2 →
        ∃ u, getDoc s.users uid = some u ∧
          u2.credits = u.credits ∧ u2.email = u.email ∧ u2.role = u.role ∧
          u2.fullName = u.fullName ∧ u2.uid = u.uid ∧ u2.status = u.status ∧
          u2.createdAt = u.createdAt ∧ u2.lastLogin = u.lastLogin ∧
          (u2 = u ∨
            (uid = userId ∧
             u2.purchasedNumbers = u.purchasedNumbers.filter (fun n => !(nums.contains n)) ∧
             u2.purchasedNumbersData =
               u.purchasedNumbersData.filter (fun d => !(nums.contains d.phoneNumber))))) := by
  intro s userId nums
  refine ⟨?_, ?_, ?_⟩
  · simp only [deleteUserNumbers]
    repeat' split
    all_goals rfl
  · simp only [deleteUserNumbers]
    repeat' split
    all_goals rfl
  · intro uid u2 h2
    simp only [deleteUserNumbers] at h2
    split at h2
    · exact ⟨u2, h2, rfl, rfl, rfl, rfl, rfl, rfl, rfl, rfl, Or.inl rfl⟩
    · split at h2
      · exact ⟨u2, h2, rfl, rfl, rfl, rfl, rfl, rfl, rfl, rfl, Or.inl rfl⟩
      · rw [show ({ s with users := updateDoc s.users userId (fun u =>
            { u with purchasedNumbers := u.purchasedNumbers.filter (fun n => !(nums.contains n)),
                     purchasedNumbersData :=
                       u.purchasedNumbersData.filter
                         (fun d => !(nums.contains d.phoneNumber)) }) } : Store).users =
            updateDoc s.users userId _ from rfl, getDoc_updateDoc] at h2
        by_cases hu : uid = userId
        · rw [if_pos hu] at h2
          cases hgd : getDoc s.users userId with
          | none => rw [hgd] at h2; exact absurd h2 (by simp)
          | some u =>
            rw [hgd] at h2
            obtain rfl : _ = u2 := Option.some.inj h2
            exact ⟨u, by rw [hu]; exact hgd, rfl, rfl, rfl, rfl, rfl, rfl, rfl, rfl,
              Or.inr ⟨hu, rfl, rfl⟩⟩
        · rw [if_neg hu] at h2
          exact ⟨u2, h2, rfl, rfl, rfl, rfl, rfl, rfl, rfl, rfl, Or.inl rfl⟩

/-- Purchase snapshot held by the sample user carol for number n1. -/
def carolData1 : PurchasedNumberData :=
  { phoneNumber := "+1 555 0100", apiUrl := "https://sms.usa.com/api/15550100",
    type := "SMS & Call", originalId := "n1", purchasedAt := "t0",
    purchaseType := "single", packageType := none, price := 2 }

/-- Purchase snapshot held by the sample user carol for number n2. -/
def carolData2 : PurchasedNumberData :=
  { phoneNumber := "+1 555 0200", apiUrl := "https://sms.usa.com/api/15550200",
    type := "SMS & Call", originalId := "n2", purchasedAt := "t0",
    purchaseType := "single", packageType := none, price := 2 }

/-- Sample user who owns two numbers. -/
def carolUser : UserRec :=
  { uid := "carol", email := "carol@example.com", fullName := "Carol", credits := 5,
    purchasedNumbers := ["+1 555 0100", "+1 555 0200"],
    purchasedNumbersData := [carolData1, carolData2], role := "user",
    createdAt := "t0", lastLogin := "t0", status := "active" }

/-- Sample store for the delete operation. -/
def carolStore : Store :=
  { numbers := [("n1", numAvail), ("n2", numSold)], users := [("carol", carolUser)],
    transactions := [] }

/-- Carol's document after deleting +1 555 0200 from her lists. -/
def deletedCarol : UserRec :=
  { carolUser with purchasedNumbers := ["+1 555 0100"], purchasedNumbersData := [carolData1] }

/-- C9 witness: deleting one owned number leaves the numbers collection and
profile fields intact and filters exactly that number out of carol's lists. -/
theorem deleteUserNumbers_frame_witness :
    (deleteUserNumbers carolStore "carol" ["+1 555 0200"]).1.numbers = carolStore.numbers ∧
    (∃ u, getDoc carolStore.users "carol" = some u ∧
      deletedCarol.credits = u.credits ∧ deletedCarol.email = u.email ∧
      deletedCarol.role = u.role ∧ deletedCarol.fullName = u.fullName ∧
      deletedCarol.uid = u.uid ∧ deletedCarol.status = u.status ∧
      deletedCarol.createdAt = u.createdAt ∧ deletedCarol.lastLogin = u.lastLogin ∧
      (deletedCarol = u ∨
        ("carol" = "carol" ∧
         deletedCarol.purchasedNumbers =
           u.purchasedNumbers.filter (fun n => !((["+1 555 0200"] : List String).contains n)) ∧
         deletedCarol.purchasedNumbersData =
           u.purchasedNumbersData.filter
             (fun d => !((["+1 555 0200"] : List String).contains d.phoneNumber))))) :=
  ⟨(deleteUserNumbers_frame carolStore "carol" ["+1 555 0200"]).1,
   (deleteUserNumbers_frame carolStore "carol" ["+1 555 0200"]).2.2 "carol" deletedCarol rfl⟩

/-- C10: signup writes a user document initialized with credits 0 (hence
satisfying the non-negative-credits invariant), role user, and empty
purchasedNumbers and purchasedNumbersData lists. -/
theorem signup_fresh_user_state :
    ∀ s uid email fullName now,
      uid ≠ "" → email ≠ "" →
      ∃ u, getDoc (signup s uid email fullName now).1.users uid = some u ∧
        u.credits = 0 ∧ 0 ≤ u.credits ∧ u.role = "user" ∧
        u.purchasedNumbers = [] ∧ u.purchasedNumbersData = [] := by
  intro s uid email fullName now hu he
  refine ⟨{ uid := uid, email := email, fullName := jsOrS fullName "User", credits := 0,
            purchasedNumbers := [], purchasedNumbersData := [], role := "user",
            createdAt := now, lastLogin := now, status := "active" },
    ?_, rfl, le_refl 0, rfl, rfl, rfl⟩
  simp [signup, hu, he, getDoc_setDoc_self]

/-- C10 witness: a concrete signup yields a zero-credit user-role document
with empty lists. -/
theorem signup_fresh_user_state_witness :
    ∃ u, getDoc (signup demoStore "dave" "dave@example.com" none "t1").1.users "dave" = some u ∧
      u.credits = 0 ∧ 0 ≤ u.credits ∧ u.role = "user" ∧
      u.purchasedNumbers = [] ∧ u.purchasedNumbersData = [] :=
  signup_fresh_user_state demoStore "dave" "dave@example.com" none "t1"
    (by decide) (by decide)
